import Mathlib

/-!
Verification of the CyPlanAI backend core against its specification.

The definitions below are a shallow embedding of the Python source:
  - src/backend/routes/reasoning.py      (risk scoring route)
  - src/backend/routes/documents.py      (directory ingestion batch)
  - src/backend/services/knowledge_base.py (keyword search / context fusion)
  - src/backend/services/agent_service.py  (fallback agent tools)
  - src/backend/langgraph_agent.py       (agent state machine, risk tool)
  - src/backend/langgraph_server.py      (SSE streaming loop)

Database rows are modelled as structures with Option fields for nullable
columns; SQLAlchemy queries become list traversals over an explicit DB
value; Python exceptions become Except values; generators become lists of
emitted events.
-/

namespace CyPlanAI

/-! ## Python semantics helpers -/

/-- Python str.lower, restricted to the ASCII case mapping used by every
string literal in the embedded code. -/
def pyLower (s : String) : String := ⟨s.data.map Char.toLower⟩

def listStartsWith : List Char → List Char → Bool
  | [], _ => true
  | _ :: _, [] => false
  | a :: as, b :: bs => a == b && listStartsWith as bs

def listHasInfix (needle : List Char) : List Char → Bool
  | [] => needle.isEmpty
  | b :: bs => listStartsWith needle (b :: bs) || listHasInfix needle bs

/-- Python substring test: needle in hay. -/
def strIn (needle hay : String) : Bool := listHasInfix needle.data hay.data

/-- SQL column ILIKE pattern with the query wrapped in percent wildcards:
case-insensitive containment; a NULL column never matches. -/
def ilikeContains (column : Option String) (query : String) : Bool :=
  match column with
  | none => false
  | some s => strIn (pyLower query) (pyLower s)

/-- Python expression v or d for a nullable integer column: None and 0 are
falsy and give the default. -/
def orDefault (v : Option Int) (d : Int) : Int :=
  match v with
  | none => d
  | some x => if x = 0 then d else x

/-- Python expression v or d for a nullable string: None and the empty
string are falsy and give the default. -/
def orStr (v : Option String) (d : String) : String :=
  match v with
  | none => d
  | some s => if s == "" then d else s

/-- Python str of a nullable value as interpolated by an f-string. -/
def pyStrOpt : Option String → String
  | none => "None"
  | some s => s

/-- Python str of a nullable integer as interpolated by an f-string. -/
def pyStrOptInt : Option Int → String
  | none => "None"
  | some v => toString v

/-- Python truthiness of an optional string (dict.get result). -/
def isTruthyStr : Option String → Bool
  | none => false
  | some s => !(s == "")

/-- Python sep.join over a list of strings. -/
def pyJoin (sep : String) : List String → String
  | [] => ""
  | [a] => a
  | a :: b :: rest => a ++ sep ++ pyJoin sep (b :: rest)

/-- Python string slicing s[:n], counting code points. -/
def pyTake (s : String) (n : Nat) : String := ⟨s.data.take n⟩

/-! ## Data model (src/backend/models.py), nullable columns as Option -/

structure Framework where
  frameworkId : String
  name : String
  type : String
  description : Option String
  version : Option String
deriving Repr, DecidableEq

structure Control where
  controlId : String
  frameworkId : String
  reference : String
  title : String
  description : Option String
  category : Option String
  maturity_cost : Int
  severity_mitigated : Int
deriving Repr, DecidableEq

structure Threat where
  threatId : String
  name : String
  description : Option String
  category : Option String
  likelihood : Option Int
  impact : Option Int
deriving Repr, DecidableEq

structure ControlMapping where
  mappingId : String
  threatId : String
  controlId : String
  evidence_hint : Option String
deriving Repr, DecidableEq

/-- The relational state the queried tables are read from. -/
structure DB where
  frameworks : List Framework
  controls : List Control
  threats : List Threat
  mappings : List ControlMapping
deriving Repr, DecidableEq

/-- The m.control relationship of a ControlMapping row. -/
def mappedControl (db : DB) (m : ControlMapping) : Option Control :=
  db.controls.find? (fun c => c.controlId == m.controlId)

/-- ControlMapping.query.filter_by(threatId=tid).all() -/
def mappingsFor (db : DB) (tid : String) : List ControlMapping :=
  db.mappings.filter (fun m => m.threatId == tid)

/-- Framework.query.get(fid) -/
def frameworkLookup (db : DB) (fid : String) : Option Framework :=
  db.frameworks.find? (fun fw => fw.frameworkId == fid)

/-! ## Risk Scoring Engine (src/backend/routes/reasoning.py) -/

/-- score from routes/reasoning.py: clamps both arguments into [1,5] with
max(1, min(5, x)) and multiplies. -/
def score (likelihood impact : Int) : Int :=
  let likelihood := max 1 (min 5 likelihood)
  let impact := max 1 (min 5 impact)
  likelihood * impact

/-- The clamp function as the specification words it (for the refinement
statement of the score claim). -/
def specClamp (x lo hi : Int) : Int := max lo (min hi x)

/-- C1: score returns clamp(likelihood,1,5) * clamp(impact,1,5); in
particular score(-3,9) = score(1,5) = 5, and the result always lies in
the interval [1,25]. -/
theorem score_spec (likelihood impact : Int) :
    score likelihood impact = specClamp likelihood 1 5 * specClamp impact 1 5 ∧
    score (-3) 9 = score 1 5 ∧ score 1 5 = 5 ∧
    1 ≤ score likelihood impact ∧ score likelihood impact ≤ 25 := by
  have hb : ∀ x : Int, 1 ≤ max 1 (min 5 x) ∧ max 1 (min 5 x) ≤ 5 := by
    intro x
    exact ⟨le_max_left 1 (min 5 x), max_le (by norm_num) (min_le_left 5 x)⟩
  obtain ⟨hl1, hl5⟩ := hb likelihood
  obtain ⟨hi1, hi5⟩ := hb impact
  refine ⟨rfl, by decide, by decide, ?_, ?_⟩
  · show 1 ≤ max 1 (min 5 likelihood) * max 1 (min 5 impact)
    nlinarith
  · show max 1 (min 5 likelihood) * max 1 (min 5 impact) ≤ 25
    nlinarith

/-! ## risk_score route (src/backend/routes/reasoning.py) -/

/-- One entry of the threats list of a risk-score request body; absent JSON
keys are none. -/
structure RiskItem where
  threatId : Option String
  name : Option String
  likelihood : Option Int
  impact : Option Int
deriving Repr, DecidableEq

/-- One recommended-control record appended for a ControlMapping row. -/
structure RecommendedControl where
  reference : String
  title : String
  frameworkId : String
  category : Option String
  evidence_hint : Option String
deriving Repr, DecidableEq

/-- One element of the results list of the risk_score response. -/
structure RiskResult where
  threat : Threat
  likelihood : Int
  impact : Int
  score : Int
  recommended_controls : List RecommendedControl
deriving Repr, DecidableEq

/-- Threat resolution in risk_score: filter_by threatId when the field is
truthy, else filter_by exact name when truthy, else no lookup at all. -/
def resolveThreat (db : DB) (item : RiskItem) : Option Threat :=
  if isTruthyStr item.threatId then
    db.threats.find? (fun t => item.threatId == some t.threatId)
  else if isTruthyStr item.name then
    db.threats.find? (fun t => item.name == some t.name)
  else
    none

/-- The recommended-controls loop: every mapping row for the threat whose
control relationship resolves; orphaned mappings are skipped by the
continue statement. -/
def controlsFor (db : DB) (tid : String) : List RecommendedControl :=
  (mappingsFor db tid).filterMap (fun m =>
    match mappedControl db m with
    | none => none
    | some c => some { reference := c.reference, title := c.title,
                       frameworkId := c.frameworkId, category := c.category,
                       evidence_hint := m.evidence_hint })

/-- One iteration of the risk_score loop for a single request item: none
models the continue taken when the threat does not resolve. The overrides
item.get(key, default) take the stored value with Python or-defaults 2 and
3 only when the key is absent. -/
def scoreItem (db : DB) (item : RiskItem) : Option RiskResult :=
  match resolveThreat db item with
  | none => none
  | some t =>
    let l := match item.likelihood with
             | some v => v
             | none => orDefault t.likelihood 2
    let i := match item.impact with
             | some v => v
             | none => orDefault t.impact 3
    some { threat := t, likelihood := l, impact := i, score := score l i,
           recommended_controls := controlsFor db t.threatId }

/-- The results accumulation of the risk_score route body. -/
def risk_score (db : DB) : List RiskItem → List RiskResult
  | [] => []
  | item :: rest =>
    match scoreItem db item with
    | none => risk_score db rest
    | some r => r :: risk_score db rest

lemma risk_score_eq_filterMap (db : DB) (items : List RiskItem) :
    risk_score db items = items.filterMap (scoreItem db) := by
  induction items with
  | nil => rfl
  | cons item rest ih =>
    simp only [risk_score, List.filterMap_cons]
    cases scoreItem db item <;> simp [ih]

lemma scoreItem_isSome (db : DB) (item : RiskItem) :
    (scoreItem db item).isSome = (resolveThreat db item).isSome := by
  unfold scoreItem
  cases resolveThreat db item <;> rfl

/-- C9: unresolvable entries are dropped without an error, and the result
holds exactly one scored entry per resolvable input entry, each carrying
its ControlMapping-derived recommended controls. -/
theorem risk_score_resolvable_entries (db : DB) (items : List RiskItem) :
    risk_score db items = items.filterMap (scoreItem db) ∧
    (risk_score db items).length =
      (items.filter (fun it => (resolveThreat db it).isSome)).length ∧
    ∀ r ∈ risk_score db items,
      r.recommended_controls = controlsFor db r.threat.threatId := by
  refine ⟨risk_score_eq_filterMap db items, ?_, ?_⟩
  · rw [risk_score_eq_filterMap db items]
    induction items with
    | nil => rfl
    | cons item rest ih =>
      have hsome := scoreItem_isSome db item
      simp only [List.filterMap_cons, List.filter_cons]
      cases hres : resolveThreat db item with
      | none =>
        have : scoreItem db item = none := by
          cases hs : scoreItem db item
          · rfl
          · rw [hres, hs] at hsome; simp at hsome
        simp [this, hres, ih]
      | some t =>
        have : ∃ r, scoreItem db item = some r := by
          cases hs : scoreItem db item
          · rw [hres, hs] at hsome; simp at hsome
          · exact ⟨_, rfl⟩
        obtain ⟨r, hr⟩ := this
        simp [hr, hres, ih]
  · intro r hr
    rw [risk_score_eq_filterMap db items] at hr
    obtain ⟨item, _, hitem⟩ := List.mem_filterMap.mp hr
    unfold scoreItem at hitem
    cases hres : resolveThreat db item with
    | none => rw [hres] at hitem; simp at hitem
    | some t =>
      rw [hres] at hitem
      simp only [Option.some_inj] at hitem
      subst hitem
      rfl

def exThreat10 : Threat :=
  { threatId := "t-010", name := "Model theft",
    description := some "Exfiltration of model weights",
    category := some "Adversarial ML", likelihood := some 0, impact := none }

def exDB10 : DB :=
  { frameworks := [], controls := [], threats := [exThreat10], mappings := [] }

def exItem10 : RiskItem :=
  { threatId := some "t-010", name := none, likelihood := none, impact := none }

/-- C10: with no overrides, the stored values are used, null or zero
likelihood defaults to 2, null or zero impact defaults to 3, and the score
clamps and multiplies those defaults. -/
theorem risk_score_stored_defaults (db : DB) (item : RiskItem) (t : Threat)
    (hres : resolveThreat db item = some t)
    (hl : item.likelihood = none) (hi : item.impact = none) :
    scoreItem db item = some
      { threat := t,
        likelihood := orDefault t.likelihood 2,
        impact := orDefault t.impact 3,
        score := score (orDefault t.likelihood 2) (orDefault t.impact 3),
        recommended_controls := controlsFor db t.threatId } := by
  unfold scoreItem
  rw [hres, hl, hi]

/-- Witness for C10: a stored zero likelihood and null impact default to 2
and 3, giving score 6. -/
theorem risk_score_stored_defaults_witness :
    scoreItem exDB10 exItem10 = some
      { threat := exThreat10, likelihood := 2, impact := 3, score := 6,
        recommended_controls := [] } := by
  have h := risk_score_stored_defaults exDB10 exItem10 exThreat10 (by decide) rfl rfl
  rw [h]
  rfl

def exThreat9 : Threat :=
  { threatId := "t-009", name := "Phishing leading to credential theft",
    description := some "Credential theft via mail",
    category := some "Social Engineering", likelihood := some 4, impact := some 4 }

def exControl9 : Control :=
  { controlId := "c-009", frameworkId := "fw-001", reference := "PR.AT-1",
    title := "Awareness training", description := none,
    category := some "Awareness", maturity_cost := 2, severity_mitigated := 3 }

def exMapping9 : ControlMapping :=
  { mappingId := "m-009", threatId := "t-009", controlId := "c-009",
    evidence_hint := some "Training records" }

def exDB9 : DB :=
  { frameworks := [], controls := [exControl9], threats := [exThreat9],
    mappings := [exMapping9] }

def exItems9 : List RiskItem :=
  [ { threatId := none, name := some "No such threat", likelihood := none, impact := none },
    { threatId := some "t-009", name := none, likelihood := some 9, impact := some 1 } ]

def exResult9 : RiskResult :=
  { threat := exThreat9, likelihood := 9, impact := 1, score := 5,
    recommended_controls :=
      [ { reference := "PR.AT-1", title := "Awareness training",
          frameworkId := "fw-001", category := some "Awareness",
          evidence_hint := some "Training records" } ] }

/-- Witness for C9: of two request entries, the unresolvable one is
dropped and the resolvable one yields exactly one scored entry with its
mapped control attached. -/
theorem risk_score_resolvable_entries_witness :
    risk_score exDB9 exItems9 = List.filterMap (scoreItem exDB9) exItems9 ∧
    (risk_score exDB9 exItems9).length = 1 ∧
    exResult9.recommended_controls = controlsFor exDB9 exResult9.threat.threatId := by
  have h := risk_score_resolvable_entries exDB9 exItems9
  refine ⟨h.1, h.2.1.trans (by decide), h.2.2 exResult9 (by decide)⟩

/-! ## upload_directory batch (src/backend/routes/documents.py) -/

/-- The result dict of DocumentLoader.process_and_store for one file. -/
structure ProcessResult where
  status : String
  library : String
  file : String
  chunks : Nat
  total_chars : Nat
deriving Repr, DecidableEq

/-- One entry of the errors list of the batch response. -/
structure FileError where
  file : String
  error : String
deriving Repr, DecidableEq

/-- The per-file loop of upload_directory: each globbed file is a path
paired with the outcome of process_and_store on it; an exception is caught
per file and recorded, the loop continues. -/
def processFiles : List (String × Except String ProcessResult) →
    List ProcessResult × List FileError
  | [] => ([], [])
  | (_, Except.ok r) :: rest =>
    let (rs, es) := processFiles rest
    (r :: rs, es)
  | (f, Except.error e) :: rest =>
    let (rs, es) := processFiles rest
    (rs, { file := f, error := e } :: es)

/-- The JSON body and status code returned by upload_directory after the
loop. -/
structure BatchResponse where
  message : String
  successful : Nat
  failed : Nat
  results : List ProcessResult
  errors : List FileError
  status_code : Nat
deriving Repr, DecidableEq

def upload_directory (files : List (String × Except String ProcessResult)) :
    BatchResponse :=
  let (results, errors) := processFiles files
  { message := "Processed " ++ toString results.length ++ " documents",
    successful := results.length,
    failed := errors.length,
    results := results,
    errors := errors,
    status_code := 200 }

lemma processFiles_lengths (files : List (String × Except String ProcessResult)) :
    (processFiles files).1.length + (processFiles files).2.length = files.length ∧
    (processFiles files).2 = files.filterMap (fun fe =>
      match fe with
      | (f, Except.error e) => some { file := f, error := e }
      | (_, Except.ok _) => none) := by
  induction files with
  | nil => exact ⟨rfl, rfl⟩
  | cons fe rest ih =>
    obtain ⟨ih1, ih2⟩ := ih
    obtain ⟨f, r⟩ := fe
    cases r with
    | ok v =>
      constructor
      · simp only [processFiles, List.length_cons]
        omega
      · simp only [processFiles, List.filterMap_cons]
        exact ih2
    | error e =>
      constructor
      · simp only [processFiles, List.length_cons]
        omega
      · simp only [processFiles, List.filterMap_cons]
        simp [ih2]

/-- C3: a single failing document never aborts the batch: the call returns
a 200 response, every failing file is recorded in the errors list, and
failed + successful equals the number of files submitted. -/
theorem upload_directory_partial_failure
    (files : List (String × Except String ProcessResult)) :
    (upload_directory files).failed + (upload_directory files).successful =
      files.length ∧
    (upload_directory files).status_code = 200 ∧
    (upload_directory files).errors = files.filterMap (fun fe =>
      match fe with
      | (f, Except.error e) => some { file := f, error := e }
      | (_, Except.ok _) => none) := by
  obtain ⟨hlen, herr⟩ := processFiles_lengths files
  refine ⟨?_, rfl, ?_⟩
  · show (processFiles files).2.length + (processFiles files).1.length = files.length
    omega
  · exact herr

/-! ## Agent state machine (src/backend/langgraph_agent.py) -/

structure ToolCall where
  name : String
  args : String
deriving Repr, DecidableEq

/-- A message as inspected by should_continue: tool_calls is none when the
object has no such attribute (the hasattr check fails). -/
structure AgentMsg where
  content : String
  tool_calls : Option (List ToolCall)
deriving Repr, DecidableEq

/-- The hasattr(last_message, ...) and truthiness test of should_continue. -/
def hasToolCalls (m : AgentMsg) : Bool :=
  match m.tool_calls with
  | none => false
  | some l => !(l.isEmpty)

inductive Route
  | tools
  | endRoute
deriving Repr, DecidableEq

/-- should_continue: routes on the last message of the state; none models
the IndexError a Python empty message list would raise. -/
def should_continue (messages : List AgentMsg) : Option Route :=
  match messages.getLast? with
  | none => none
  | some last_message =>
    if hasToolCalls last_message then some Route.tools else some Route.endRoute

inductive GraphNode
  | START
  | agent
  | tools
  | END
deriving Repr, DecidableEq

/-- The edges wired by create_agent_graph: entry point agent, conditional
edges from agent through should_continue with mapping tools to the tools
node and end to END, and an unconditional edge from tools back to agent. -/
def graphNext (n : GraphNode) (messages : List AgentMsg) : Option GraphNode :=
  match n with
  | GraphNode.START => some GraphNode.agent
  | GraphNode.agent =>
    match should_continue messages with
    | some Route.tools => some GraphNode.tools
    | some Route.endRoute => some GraphNode.END
    | none => none
  | GraphNode.tools => some GraphNode.agent
  | GraphNode.END => none

/-- C4: from the agent node the graph moves to tools exactly when the
message the agent just produced (the last of the state) carries one or
more pending tool invocations, otherwise to the terminal node END; from
the tools node it returns to agent unconditionally. -/
theorem agent_graph_transitions (messages : List AgentMsg) (m : AgentMsg)
    (rest : List AgentMsg) (hmsgs : messages = rest ++ [m]) :
    (graphNext GraphNode.agent messages = some GraphNode.tools ↔
      ∃ tcs, m.tool_calls = some tcs ∧ tcs ≠ []) ∧
    (graphNext GraphNode.agent messages = some GraphNode.END ↔
      ¬ ∃ tcs, m.tool_calls = some tcs ∧ tcs ≠ []) ∧
    (∀ msgs : List AgentMsg, graphNext GraphNode.tools msgs = some GraphNode.agent) := by
  subst hmsgs
  have hlast : (rest ++ [m]).getLast? = some m := by
    simp [List.getLast?_concat]
  have htc : hasToolCalls m = true ↔ ∃ tcs, m.tool_calls = some tcs ∧ tcs ≠ [] := by
    unfold hasToolCalls
    cases h : m.tool_calls with
    | none => simp
    | some l =>
      cases l with
      | nil => simp
      | cons a as => simp
  refine ⟨?_, ?_, fun _ => rfl⟩
  · simp only [graphNext, should_continue, hlast]
    rw [← htc]
    by_cases h : hasToolCalls m = true
    · simp [h]
    · simp [h]
  · simp only [graphNext, should_continue, hlast]
    rw [← htc]
    by_cases h : hasToolCalls m = true
    · simp [h]
    · simp [h]

def exMsgWithTool : AgentMsg :=
  { content := "",
    tool_calls := some [{ name := "search_knowledge_base", args := "access control" }] }

/-- Witness for C4: a one-message state whose last message requests a tool
call routes agent to tools, not to END, and tools routes back to agent. -/
theorem agent_graph_transitions_witness :
    (graphNext GraphNode.agent [exMsgWithTool] = some GraphNode.tools ↔
      ∃ tcs, exMsgWithTool.tool_calls = some tcs ∧ tcs ≠ []) ∧
    (graphNext GraphNode.agent [exMsgWithTool] = some GraphNode.END ↔
      ¬ ∃ tcs, exMsgWithTool.tool_calls = some tcs ∧ tcs ≠ []) ∧
    (∀ msgs : List AgentMsg, graphNext GraphNode.tools msgs = some GraphNode.agent) :=
  agent_graph_transitions [exMsgWithTool] exMsgWithTool [] rfl

/-! ## SSE streaming loop (src/backend/langgraph_server.py, stream_events) -/

/-- The event kinds the try-block body of stream_events can yield while
consuming the agent stream; the terminal markers are never among them
(the mode label of an in-loop yield is values, updates or data, and the
ainvoke fallback yields values). -/
inductive InnerEvent
  | values
  | updates
  | data
deriving Repr, DecidableEq

/-- One step of the try-block body: either an event is yielded to the SSE
consumer, or the step raises, transferring control to the except handler. -/
inductive BodyStep
  | yieldEv (e : InnerEvent)
  | raiseExc (msg : String)
deriving Repr, DecidableEq

inductive SSEEvent
  | inner (e : InnerEvent)
  | endMarker
  | errorMarker (msg : String)
deriving Repr, DecidableEq

/-- stream_events: the body steps run in order; the first raised exception
jumps to the except handler, which yields a single error event and stops;
a body that completes reaches its final statement, which yields the end
event. -/
def stream_events : List BodyStep → List SSEEvent
  | [] => [SSEEvent.endMarker]
  | BodyStep.yieldEv e :: rest => SSEEvent.inner e :: stream_events rest
  | BodyStep.raiseExc msg :: _ => [SSEEvent.errorMarker msg]

def isEndEvent : SSEEvent → Bool
  | SSEEvent.endMarker => true
  | _ => false

def isErrorEvent : SSEEvent → Bool
  | SSEEvent.errorMarker _ => true
  | _ => false

/-- Whether some step of the body raises (the run has an internal failure). -/
def hasRaise : List BodyStep → Bool
  | [] => false
  | BodyStep.yieldEv _ :: rest => hasRaise rest
  | BodyStep.raiseExc _ :: _ => true

/-- Counterexample for C2: on a run whose body raises, the end marker is
emitted zero times, not exactly once; the failure is reported by a single
error event instead. -/
theorem stream_end_marker_cex :
    hasRaise [BodyStep.raiseExc "boom"] = true ∧
    (stream_events [BodyStep.raiseExc "boom"]).countP isEndEvent = 0 ∧
    (stream_events [BodyStep.raiseExc "boom"]).countP isErrorEvent = 1 := by
  decide

/-- C2 (amended): every run terminates with exactly one terminal marker as
its final event and never closes silently: the end marker exactly once
when no step raises, otherwise no end marker and exactly one error event. -/
theorem stream_terminal_marker (steps : List BodyStep) :
    (stream_events steps).countP isEndEvent +
      (stream_events steps).countP isErrorEvent = 1 ∧
    (∃ e, (stream_events steps).getLast? = some e ∧
      (isEndEvent e || isErrorEvent e) = true) ∧
    ((stream_events steps).countP isEndEvent = 1 ↔ hasRaise steps = false) ∧
    ((stream_events steps).countP isErrorEvent = 1 ↔ hasRaise steps = true) := by
  induction steps with
  | nil =>
    exact ⟨rfl, ⟨SSEEvent.endMarker, rfl, rfl⟩, by decide, by decide⟩
  | cons step rest ih =>
    obtain ⟨ih1, ⟨e, he, hterm⟩, ih3, ih4⟩ := ih
    cases step with
    | yieldEv ev =>
      refine ⟨?_, ⟨e, ?_, hterm⟩, ?_, ?_⟩
      · simpa [stream_events, List.countP_cons, isEndEvent, isErrorEvent] using ih1
      · obtain ⟨y, ys, hys⟩ : ∃ y ys, stream_events rest = y :: ys := by
          cases h : stream_events rest with
          | nil => rw [h] at he; simp at he
          | cons y ys => exact ⟨y, ys, rfl⟩
        show (SSEEvent.inner ev :: stream_events rest).getLast? = some e
        rw [hys, List.getLast?_cons_cons, ← hys]
        exact he
      · simpa [stream_events, List.countP_cons, isEndEvent, hasRaise] using ih3
      · simpa [stream_events, List.countP_cons, isErrorEvent, hasRaise] using ih4
    | raiseExc msg =>
      refine ⟨?_, ⟨SSEEvent.errorMarker msg, ?_, rfl⟩, ?_, ?_⟩
      · simp [stream_events, List.countP_cons, isEndEvent, isErrorEvent]
      · simp [stream_events]
      · simp [stream_events, List.countP_cons, isEndEvent, hasRaise]
      · simp [stream_events, List.countP_cons, isErrorEvent, hasRaise]

/-! ## Knowledge base (src/backend/services/knowledge_base.py) -/

def controlOrder (a b : Control) : Bool :=
  decide (a.frameworkId < b.frameworkId) ||
  (a.frameworkId == b.frameworkId && decide (a.reference ≤ b.reference))

/-- Control.query.order_by(Control.frameworkId, Control.reference).all() -/
def controlsSorted (db : DB) : List Control := db.controls.mergeSort controlOrder

/-- The parts appended per framework by get_all_knowledge. -/
def frameworkParts (fw : Framework) : List String :=
  ["Framework: " ++ fw.name ++ " (" ++ fw.type ++ ")\n",
   "Description: " ++ orStr fw.description "N/A" ++ "\n",
   "Version: " ++ orStr fw.version "N/A" ++ "\n\n"]

/-- The parts appended per control by get_all_knowledge. -/
def controlParts (db : DB) (ctrl : Control) : List String :=
  let fwName := match frameworkLookup db ctrl.frameworkId with
                | some fw => fw.name
                | none => "Unknown"
  ["Control: " ++ ctrl.reference ++ " - " ++ ctrl.title ++ "\n",
   "Framework: " ++ fwName ++ "\n",
   "Category: " ++ orStr ctrl.category "N/A" ++ "\n",
   "Description: " ++ orStr ctrl.description "N/A" ++ "\n",
   "Maturity/Cost: " ++ toString ctrl.maturity_cost ++ "/5, Severity Mitigated: "
     ++ toString ctrl.severity_mitigated ++ "/5\n\n"]

/-- The parts appended per threat by get_all_knowledge, including the
recommended-controls block that skips orphaned mappings. -/
def threatParts (db : DB) (t : Threat) : List String :=
  let base :=
    ["Threat: " ++ t.name ++ "\n",
     "Category: " ++ orStr t.category "N/A" ++ "\n",
     "Description: " ++ orStr t.description "N/A" ++ "\n",
     "Likelihood: " ++ pyStrOptInt t.likelihood ++ "/5, Impact: "
       ++ pyStrOptInt t.impact ++ "/5\n"]
  let ms := mappingsFor db t.threatId
  let recParts :=
    if ms.isEmpty then []
    else "Recommended Controls:\n" ::
      ms.filterMap (fun m =>
        match mappedControl db m with
        | some c => some ("  - " ++ c.reference ++ " (" ++ c.title ++ "): "
            ++ orStr m.evidence_hint "See control description" ++ "\n")
        | none => none)
  base ++ recParts ++ ["\n"]

/-- get_all_knowledge: the full ontology dump joined with newline. -/
def get_all_knowledge (db : DB) : String :=
  pyJoin "\n" (
    ["=== CYBERSECURITY FRAMEWORKS ===\n"] ++ (db.frameworks.map frameworkParts).flatten ++
    ["=== CONTROLS ===\n"] ++ ((controlsSorted db).map (controlParts db)).flatten ++
    ["=== THREAT LIBRARY ===\n"] ++ (db.threats.map (threatParts db)).flatten)

/-- The framework filter of search_knowledge: name or description ILIKE. -/
def matchedFrameworks (db : DB) (query : String) : List Framework :=
  db.frameworks.filter (fun fw =>
    ilikeContains (some fw.name) query || ilikeContains fw.description query)

/-- The control filter of search_knowledge: title, description, reference
or category ILIKE. -/
def matchedControls (db : DB) (query : String) : List Control :=
  db.controls.filter (fun c =>
    ilikeContains (some c.title) query || ilikeContains c.description query ||
    ilikeContains (some c.reference) query || ilikeContains c.category query)

/-- The threat filter of search_knowledge: name, description or category
ILIKE. -/
def matchedThreats (db : DB) (query : String) : List Threat :=
  db.threats.filter (fun t =>
    ilikeContains (some t.name) query || ilikeContains t.description query ||
    ilikeContains t.category query)

/-- The one or two result lines per matched control. -/
def searchControlParts (db : DB) (c : Control) : List String :=
  let fwName := match frameworkLookup db c.frameworkId with
                | some fw => fw.name
                | none => "Unknown"
  let line := c.reference ++ " (" ++ fwName ++ "): " ++ c.title ++ "\n"
  match c.description with
  | none => [line]
  | some d => if d == "" then [line] else [line, "  " ++ d ++ "\n"]

/-- The results list assembled by search_knowledge. -/
def searchSections (db : DB) (query : String) : List String :=
  (if (matchedFrameworks db query).isEmpty then [] else
    "=== RELEVANT FRAMEWORKS ===\n" ::
      (matchedFrameworks db query).map (fun fw =>
        fw.name ++ ": " ++ pyStrOpt fw.description ++ "\n")) ++
  (if (matchedControls db query).isEmpty then [] else
    "\n=== RELEVANT CONTROLS ===\n" ::
      ((matchedControls db query).map (searchControlParts db)).flatten) ++
  (if (matchedThreats db query).isEmpty then [] else
    "\n=== RELEVANT THREATS ===\n" ::
      (matchedThreats db query).map (fun t =>
        t.name ++ " (" ++ pyStrOpt t.category ++ "): " ++ pyStrOpt t.description ++ "\n"))

/-- search_knowledge: the fixed sentinel when the results list stayed
empty, else the newline join. -/
def search_knowledge (db : DB) (query : String) : String :=
  if (searchSections db query).isEmpty then
    "No specific matches found in knowledge base."
  else pyJoin "\n" (searchSections db query)

/-- One formatted hit of DocumentLoader.search as consumed by the vector
block; source and library are the optional metadata keys. -/
structure VectorResult where
  content : String
  source : Option String
  library : Option String
deriving Repr, DecidableEq

/-- The environment of one get_context_for_question call: the relational
state plus the outcome of the vector-search block. A document loader that
failed to initialize contributes no results, like an ok empty list. -/
structure KBEnv where
  db : DB
  vectorOutcome : Except String (List VectorResult)

/-- The vector section: on a raised exception the except handler logs and
appends nothing; on results, the header plus one part per hit with
metadata defaults default and Unknown. -/
def vectorParts : Except String (List VectorResult) → List String
  | Except.error _ => []
  | Except.ok vector_results =>
    if vector_results.isEmpty then []
    else "=== RELEVANT LIBRARY DOCUMENTATION ===\n" ::
      vector_results.map (fun r =>
        "[From " ++ r.library.getD "default" ++ "/" ++ r.source.getD "Unknown" ++ "]\n"
          ++ r.content ++ "\n\n")

def framework_names : List String :=
  ["nist csf", "nist cs", "iso 27001", "iso27001", "nist ai rmf", "mitre atlas", "atlas"]

def threat_terms : List String :=
  ["phishing", "poisoning", "adversarial", "attack", "threat", "risk", "vulnerability"]

def control_terms : List String :=
  ["control", "compliance", "audit", "access", "encryption", "monitoring"]

/-- The three keyword extraction loops of get_context_for_question. -/
def extractKeywords (question : String) : List String :=
  let q_lower := pyLower question
  framework_names.filter (fun fw_name => strIn fw_name q_lower) ++
  threat_terms.filter (fun term => strIn term q_lower) ++
  control_terms.filter (fun term => strIn term q_lower)

/-- The keyword-search-or-fallback block: on keywords, search joined with
spaces; otherwise the full ontology dump truncated to 3000 characters. -/
def keywordParts (db : DB) (question : String) : List String :=
  let keywords := extractKeywords question
  if keywords.isEmpty then
    ["=== CYBERSECURITY FRAMEWORK KNOWLEDGE (Summary) ===\n",
     pyTake (get_all_knowledge db) 3000]
  else
    let kb_context := search_knowledge db (pyJoin " " keywords)
    if kb_context == "" then []
    else ["=== CYBERSECURITY FRAMEWORK KNOWLEDGE ===\n", kb_context]

/-- get_context_for_question: vector section first, then keyword/ontology
section, joined with newline; placeholder only if no part was collected. -/
def get_context_for_question (env : KBEnv) (question : String)
    (use_vector_search : Bool) : String :=
  let context_parts :=
    (if use_vector_search then vectorParts env.vectorOutcome else []) ++
    keywordParts env.db question
  if context_parts.isEmpty then "No relevant context found."
  else pyJoin "\n" context_parts

lemma length_zero_eq_empty (s : String) (h : s.length = 0) : s = "" := by
  cases s with
  | mk data =>
    cases data with
    | nil => rfl
    | cons c cs => simp [String.length] at h

lemma mem_length_le_pyJoin (sep s : String) (l : List String) (hs : s ∈ l) :
    s.length ≤ (pyJoin sep l).length := by
  induction l with
  | nil => cases hs
  | cons a t ih =>
    cases t with
    | nil =>
      have : s = a := by simpa using hs
      subst this
      exact le_rfl
    | cons b rest =>
      rcases List.mem_cons.mp hs with rfl | hmem
      · show s.length ≤ ((s ++ sep) ++ pyJoin sep (b :: rest)).length
        rw [String.length_append, String.length_append]
        omega
      · have h1 := ih hmem
        show s.length ≤ ((a ++ sep) ++ pyJoin sep (b :: rest)).length
        rw [String.length_append, String.length_append]
        omega

lemma pyJoin_ne_of_mem (sep s : String) (l : List String) (hs : s ∈ l)
    (hne : s ≠ "") : pyJoin sep l ≠ "" := by
  intro h
  have h1 := mem_length_le_pyJoin sep s l hs
  rw [h] at h1
  have h0 : ("" : String).length = 0 := rfl
  exact hne (length_zero_eq_empty s (by omega))

lemma search_knowledge_ne (db : DB) (query : String) :
    search_knowledge db query ≠ "" := by
  unfold search_knowledge
  by_cases h : (searchSections db query).isEmpty
  · rw [if_pos h]
    decide
  · rw [if_neg h]
    have hmem : "=== RELEVANT FRAMEWORKS ===\n" ∈ searchSections db query ∨
        "\n=== RELEVANT CONTROLS ===\n" ∈ searchSections db query ∨
        "\n=== RELEVANT THREATS ===\n" ∈ searchSections db query := by
      unfold searchSections at h ⊢
      by_cases hf : (matchedFrameworks db query).isEmpty
      · by_cases hcq : (matchedControls db query).isEmpty
        · by_cases htq : (matchedThreats db query).isEmpty
          · exact absurd (by simp [hf, hcq, htq]) h
          · right; right; simp [hf, hcq, htq]
        · right; left; simp [hf, hcq]
      · left; simp [hf]
    rcases hmem with hm | hm | hm
    · exact pyJoin_ne_of_mem _ _ _ hm (by decide)
    · exact pyJoin_ne_of_mem _ _ _ hm (by decide)
    · exact pyJoin_ne_of_mem _ _ _ hm (by decide)

lemma keywordParts_ne (db : DB) (question : String) :
    keywordParts db question ≠ [] := by
  unfold keywordParts
  by_cases hk : (extractKeywords question).isEmpty
  · simp [hk]
  · have hne := search_knowledge_ne db (pyJoin " " (extractKeywords question))
    have hbeq : (search_knowledge db (pyJoin " " (extractKeywords question)) == "") = false := by
      simpa using hne
    simp [hk, hbeq]

lemma pyTake_length_le (s : String) (n : Nat) : (pyTake s n).length ≤ n := by
  show (s.data.take n).length ≤ n
  rw [List.length_take]
  omega

/-- C5: the returned text is the in-order newline join of the vector
section followed by the keyword/ontology section, and with no matched
keyword the ontology section is the full dump cut to at most 3000
characters. -/
theorem get_context_concatenation (env : KBEnv) (question : String) :
    get_context_for_question env question true =
      pyJoin "\n" (vectorParts env.vectorOutcome ++ keywordParts env.db question) ∧
    ((extractKeywords question).isEmpty = true →
      keywordParts env.db question =
        ["=== CYBERSECURITY FRAMEWORK KNOWLEDGE (Summary) ===\n",
         pyTake (get_all_knowledge env.db) 3000] ∧
      (pyTake (get_all_knowledge env.db) 3000).length ≤ 3000) := by
  constructor
  · have hkp := keywordParts_ne env.db question
    have hne : vectorParts env.vectorOutcome ++ keywordParts env.db question ≠ [] := by
      intro hcontra
      exact hkp (List.append_eq_nil.mp hcontra).2
    show (if (vectorParts env.vectorOutcome ++ keywordParts env.db question).isEmpty
          then "No relevant context found."
          else pyJoin "\n" (vectorParts env.vectorOutcome ++ keywordParts env.db question)) = _
    rw [if_neg (by simpa [List.isEmpty_iff] using hne)]
  · intro hk
    refine ⟨by simp [keywordParts, hk], pyTake_length_le _ _⟩

/-- C7: a raised vector-search error is swallowed locally: the vector
block contributes nothing and the call returns exactly the context a run
without vector search returns. -/
theorem vector_errors_swallowed (db : DB) (e : String) (question : String) :
    vectorParts (Except.error e) = [] ∧
    get_context_for_question ⟨db, Except.error e⟩ question true =
      get_context_for_question ⟨db, Except.error e⟩ question false :=
  ⟨rfl, rfl⟩

def exDB5 : DB := { frameworks := [], controls := [], threats := [], mappings := [] }

def exEnv5 : KBEnv :=
  { db := exDB5,
    vectorOutcome := Except.ok
      [{ content := "Zero trust guidance", source := some "zt.txt",
         library := some "library" }] }

/-- Witness for C5: on a question without keywords, the context is the
join of the vector hit section and the truncated ontology dump section. -/
theorem get_context_concatenation_witness :
    get_context_for_question exEnv5 "hello there" true =
      pyJoin "\n" (vectorParts exEnv5.vectorOutcome ++ keywordParts exEnv5.db "hello there") ∧
    keywordParts exEnv5.db "hello there" =
      ["=== CYBERSECURITY FRAMEWORK KNOWLEDGE (Summary) ===\n",
       pyTake (get_all_knowledge exEnv5.db) 3000] ∧
    (pyTake (get_all_knowledge exEnv5.db) 3000).length ≤ 3000 := by
  have h := get_context_concatenation exEnv5 "hello there"
  exact ⟨h.1, h.2 (by decide)⟩

/-- C8: a query matching no framework, no control and no threat yields an
empty results list and the fixed sentinel text, with no error raised. -/
theorem search_knowledge_no_match (db : DB) (query : String)
    (hf : matchedFrameworks db query = [])
    (hc : matchedControls db query = [])
    (ht : matchedThreats db query = []) :
    searchSections db query = [] ∧
    search_knowledge db query = "No specific matches found in knowledge base." := by
  have hs : searchSections db query = [] := by
    unfold searchSections
    rw [hf, hc, ht]
    rfl
  refine ⟨hs, ?_⟩
  unfold search_knowledge
  rw [hs]
  rfl

def exFw8 : Framework :=
  { frameworkId := "fw-008", name := "NIST CSF", type := "NIST_CSF",
    description := some "Core functions", version := some "1.1" }

def exCtrl8 : Control :=
  { controlId := "c-008", frameworkId := "fw-008", reference := "PR.AC-3",
    title := "Remote access managed", description := none,
    category := some "Access Control", maturity_cost := 2, severity_mitigated := 3 }

def exThreat8 : Threat :=
  { threatId := "t-008", name := "Phishing", description := none,
    category := some "Social Engineering", likelihood := some 3, impact := some 4 }

def exDB8 : DB :=
  { frameworks := [exFw8], controls := [exCtrl8], threats := [exThreat8],
    mappings := [] }

/-- Witness for C8: a query contained in no stored row returns the empty
results list and the sentinel. -/
theorem search_knowledge_no_match_witness :
    searchSections exDB8 "quantum blockchain" = [] ∧
    search_knowledge exDB8 "quantum blockchain" =
      "No specific matches found in knowledge base." :=
  search_knowledge_no_match exDB8 "quantum blockchain" (by decide) (by decide) (by decide)

/-! ## Risk assessment tools (src/backend/langgraph_agent.py and
src/backend/services/agent_service.py) -/

/-- The threat filter of get_risk_assessment_tool: the lowercased keywords
matched ILIKE against name, description and category. -/
def get_risk_assessment_threats (db : DB) (keywords : String) : List Threat :=
  let keywords_lower := pyLower keywords
  db.threats.filter (fun t =>
    ilikeContains (some t.name) keywords_lower ||
    ilikeContains t.description keywords_lower ||
    ilikeContains t.category keywords_lower)

/-- The scored lines of get_risk_assessment_tool: per matched threat the
score is (t.likelihood or 2) * (t.impact or 3), with no clamping. -/
def get_risk_assessment_tool (db : DB) (keywords : String) : List (Threat × Int) :=
  (get_risk_assessment_threats db keywords).map (fun t =>
    (t, orDefault t.likelihood 2 * orDefault t.impact 3))

/-- The keyword-to-threat-name mapping of AgentService._tool_risk_score. -/
def agentToolMapping : List (String × String) :=
  [("phish", "Phishing leading to credential theft"),
   ("poison", "Data poisoning (ML)")]

/-- The seen set of _tool_risk_score, as an insertion-ordered duplicate-free
list (Python set iteration order is unspecified; this fixes one order). -/
def collectSeen (hints : List String) : List String :=
  hints.foldl (fun seen h =>
    let l := pyLower h
    agentToolMapping.foldl (fun acc kv =>
      if strIn kv.1 l && !(acc.contains kv.2) then acc ++ [kv.2] else acc) seen) []

/-- AgentService._tool_risk_score: each seen name resolved by exact-name
lookup, misses skipped, score (t.likelihood or 2) * (t.impact or 3) with
no clamping. -/
def _tool_risk_score (db : DB) (hints : List String) : List (Threat × Int) :=
  (collectSeen hints).filterMap (fun name =>
    match db.threats.find? (fun t => t.name == name) with
    | none => none
    | some t => some (t, orDefault t.likelihood 2 * orDefault t.impact 3))

def exThreat6 : Threat :=
  { threatId := "t-006", name := "Phishing leading to credential theft",
    description := some "Stolen credentials", category := some "Phishing",
    likelihood := some 7, impact := some 7 }

def exDB6 : DB :=
  { frameworks := [], controls := [], threats := [exThreat6], mappings := [] }

/-- Counterexample for C6: a threat stored with likelihood 7 and impact 7
is scored 49 by both tool paths, which a clamp to [1,5] (score 25, range
[1,25]) would forbid. -/
theorem risk_tools_unclamped_cex :
    get_risk_assessment_tool exDB6 "phishing" = [(exThreat6, 49)] ∧
    _tool_risk_score exDB6 ["beware of phishing mail"] = [(exThreat6, 49)] ∧
    score 7 7 = 25 ∧ ¬ ((49 : Int) ≤ 25) := by
  refine ⟨by decide, by decide, by decide, by decide⟩

/-- C6 (amended): both tool scores are the unclamped product of the
or-defaulted stored values; whenever those defaulted values already lie in
[1,5] the tool score coincides with the clamping score function and lies
in [1,25]. -/
theorem risk_tools_clamp_in_range (db : DB) (keywords : String)
    (hints : List String) (t : Threat) (s : Int)
    (hmem : (t, s) ∈ get_risk_assessment_tool db keywords ∨
            (t, s) ∈ _tool_risk_score db hints)
    (hl1 : 1 ≤ orDefault t.likelihood 2) (hl5 : orDefault t.likelihood 2 ≤ 5)
    (hi1 : 1 ≤ orDefault t.impact 3) (hi5 : orDefault t.impact 3 ≤ 5) :
    s = orDefault t.likelihood 2 * orDefault t.impact 3 ∧
    s = score (orDefault t.likelihood 2) (orDefault t.impact 3) ∧
    1 ≤ s ∧ s ≤ 25 := by
  have hs : s = orDefault t.likelihood 2 * orDefault t.impact 3 := by
    rcases hmem with hm | hm
    · unfold get_risk_assessment_tool at hm
      obtain ⟨t', ht', heq⟩ := List.mem_map.mp hm
      simp only [Prod.mk.injEq] at heq
      obtain ⟨rfl, hps⟩ := heq
      exact hps.symm
    · unfold _tool_risk_score at hm
      obtain ⟨nm, hnm, hfm⟩ := List.mem_filterMap.mp hm
      cases hfind : db.threats.find? (fun th => th.name == nm) with
      | none => rw [hfind] at hfm; simp at hfm
      | some t' =>
        rw [hfind] at hfm
        simp only [Option.some_inj, Prod.mk.injEq] at hfm
        obtain ⟨rfl, hps⟩ := hfm
        exact hps.symm
  have hsc : score (orDefault t.likelihood 2) (orDefault t.impact 3) =
      orDefault t.likelihood 2 * orDefault t.impact 3 := by
    show max 1 (min 5 (orDefault t.likelihood 2)) *
        max 1 (min 5 (orDefault t.impact 3)) = _
    rw [min_eq_right hl5, max_eq_right hl1, min_eq_right hi5, max_eq_right hi1]
  have h1 : 1 ≤ s := by rw [hs]; nlinarith
  have h2 : s ≤ 25 := by rw [hs]; nlinarith
  exact ⟨hs, hs.trans hsc.symm, h1, h2⟩

def exThreat6w : Threat :=
  { threatId := "t-06w", name := "Data poisoning (ML)",
    description := some "Poisoned training data",
    category := some "Adversarial ML", likelihood := some 4, impact := some 5 }

def exDB6w : DB :=
  { frameworks := [], controls := [], threats := [exThreat6w], mappings := [] }

/-- Witness for the amended C6: a matched threat with stored values 4 and
5 is scored 20 by the tool, agreeing with the clamping score function and
lying in [1,25]. -/
theorem risk_tools_clamp_in_range_witness :
    (exThreat6w, (20 : Int)) ∈ get_risk_assessment_tool exDB6w "poisoning" ∧
    (20 : Int) = orDefault exThreat6w.likelihood 2 * orDefault exThreat6w.impact 3 ∧
    (20 : Int) = score (orDefault exThreat6w.likelihood 2) (orDefault exThreat6w.impact 3) ∧
    1 ≤ (20 : Int) ∧ (20 : Int) ≤ 25 := by
  have h := risk_tools_clamp_in_range exDB6w "poisoning" [] exThreat6w 20
    (Or.inl (by decide)) (by decide) (by decide) (by decide) (by decide)
  exact ⟨by decide, h⟩

end CyPlanAI
